import Mathlib

/-!
Verification of the cobalt web-toolkit dispatch core.

The development shallowly embeds the per-request pipeline of the repository:
the `Context` record (context.go), the `serve*` response helpers, and the
composed route functions built by `addroute` (both the httprouter variant in
`cobalt.go` and the httptreemux variant), `AddGroup`, and `AddNotFoundHandler`.
The outbound `http.ResponseWriter` is modelled as an explicit record of header
writes, status writes and body chunks; `log.Printf` calls and closure
invocations are modelled as an event trace so that ordering and emission
properties can be stated.
-/

namespace Cobalt

/-- Model of the outbound `http.ResponseWriter`: headers set so far (newest
first, first match wins on lookup, matching `Header().Set` semantics), the
sequence of `WriteHeader` calls, and the body chunks written. -/
structure HttpResponse where
  headers : List (String × String)
  statusWrites : List Int
  body : List String
deriving DecidableEq

/-- A response on which nothing has been written yet. -/
def emptyResponse : HttpResponse :=
  { headers := [], statusWrites := [], body := [] }

/-- `w.Header().Set(k, v)`: the new pair shadows any earlier pair for `k`. -/
def headerSet (r : HttpResponse) (k v : String) : HttpResponse :=
  { r with headers := (k, v) :: r.headers }

/-- Look a header up; the most recently set value for the key wins. -/
def headerGet (r : HttpResponse) (k : String) : Option String :=
  r.headers.lookup k

/-- `w.WriteHeader(status)`: records the numeric status write. -/
def writeHeader (r : HttpResponse) (status : Int) : HttpResponse :=
  { r with statusWrites := r.statusWrites ++ [status] }

/-- `w.Write(chunk)`: appends a chunk to the body. -/
def write (r : HttpResponse) (chunk : String) : HttpResponse :=
  { r with body := r.body ++ [chunk] }

/-- The `Coder` interface, restricted to the two members the dispatch core
uses on the response path: `ContentType()` and `Encode` (an encoded value is
modelled as the string chunk it writes). `α` is the type of Go
`interface{}` values handled by the coder. -/
structure Coder (α : Type) where
  contentType : String
  encode : α → String

/-- The `Context` struct from context.go.  `params` is `Option`-valued so
that a Go `nil` map (`none`) is distinguishable from an empty map
(`some []`); `data` is the scratch map, newest entry first.  The `Request`
and `Response` handles are kept outside (see `ReqState`). -/
structure Context (α : Type) where
  ID : String
  params : Option (List (String × String))
  data : List (String × α)
  coder : Coder α
  status : Int

/-- `NewContext`: fresh scratch map, the given parameter map, status 0.
The uuid produced by `uuid.NewV4` is abstracted as the supplied `id`. -/
def NewContext (id : String) (p : Option (List (String × String))) (coder : Coder α) : Context α :=
  { ID := id, params := p, data := [], coder := coder, status := 0 }

/-- Lookup in a possibly-`nil` Go `map[string]string`: reading from a nil
map yields the zero value with `ok = false`. -/
def mapLookup (p : Option (List (String × String))) (key : String) : Option String :=
  match p with
  | none => none
  | some entries => entries.lookup key

/-- `Context.RouteValue`: the matched path-parameter value, or `""` when the
key is absent. -/
def Context.RouteValue (c : Context α) (key : String) : String :=
  match mapLookup c.params key with
  | some value => value
  | none => ""

/-- `Context.GetData`: scratch-data lookup; Go returns `nil` (here `none`)
when the key is absent. -/
def Context.GetData (c : Context α) (key : String) : Option α :=
  c.data.lookup key

/-- `Context.SetData`: map assignment `c.data[key] = value`; the new entry
shadows older entries for the same key. -/
def Context.SetData (c : Context α) (key : String) (value : α) : Context α :=
  { c with data := (key, value) :: c.data }

/-- A context together with its response writer (in Go the context holds a
pointer to the writer; the serve helpers mutate both). -/
structure ReqState (α : Type) where
  ctx : Context α
  resp : HttpResponse

/-- The `CacheControlHeader` constant. -/
def CacheControlHeader : String := "Cache-control"

/-- The value `fmt.Sprintf("private, must-revalidate, max-age=%d", seconds)`. -/
def cacheValue (seconds : Int) : String :=
  "private, must-revalidate, max-age=" ++ toString seconds

/-- `Context.serveEncoded(val, status, seconds)`: default status 0 to 200,
set `Content-Type` from the coder, set `Cache-control` when `seconds > 0`,
write the status, encode the body when `val != nil`, and record the status
on the context. -/
def serveEncoded (s : ReqState α) (val : Option α) (status : Int) (seconds : Int) : ReqState α :=
  let status := if status = 0 then 200 else status
  let r := headerSet s.resp "Content-Type" s.ctx.coder.contentType
  let r := if seconds > 0 then headerSet r CacheControlHeader (cacheValue seconds) else r
  let r := writeHeader r status
  let r :=
    match val with
    | some v => write r (s.ctx.coder.encode v)
    | none => r
  { ctx := { s.ctx with status := status }, resp := r }

/-- `Context.Error(body, status)`: the source passes `status` into
`serveEncoded`'s `seconds` parameter and 0 into its `status` parameter. -/
def Error (s : ReqState α) (body : Option α) (status : Int) : ReqState α :=
  serveEncoded s body 0 status

/-- `Context.Serve(val)` = `serveEncoded(val, 200, 0)`. -/
def Serve (s : ReqState α) (val : Option α) : ReqState α :=
  serveEncoded s val 200 0

/-- `Context.ServeWithStatus(val, status)` = `serveEncoded(val, status, 0)`. -/
def ServeWithStatus (s : ReqState α) (val : Option α) (status : Int) : ReqState α :=
  serveEncoded s val status 0

/-- `Context.ServeStatus(status)`: defaults 0 to 200, records the status on
the context and writes it; touches neither headers nor body. -/
def ServeStatus (s : ReqState α) (status : Int) : ReqState α :=
  let status := if status = 0 then 200 else status
  { ctx := { s.ctx with status := status }, resp := writeHeader s.resp status }

/-- `Context.ServeCachedWithStatus(val, status, seconds)` =
`serveEncoded(val, status, seconds)`. -/
def ServeCachedWithStatus (s : ReqState α) (val : Option α) (status seconds : Int) : ReqState α :=
  serveEncoded s val status seconds

/-- `Context.ServeResponse(resp, status, contentType)`: sets `Content-Type`
to the supplied value when non-empty, writes the supplied status verbatim
(no defaulting) and the bytes verbatim; it does not record the status on
the context. -/
def ServeResponse (s : ReqState α) (payload : String) (status : Int) (contentType : String) : ReqState α :=
  let r := if contentType ≠ "" then headerSet s.resp "Content-Type" contentType else s.resp
  let r := writeHeader r status
  { s with resp := write r payload }

/-- Observable events of one dispatched request: the `log.Printf` records
emitted by the composed route function (`startLog`, `panicLog`,
`completeLog` with the correlation id and final status), the
`X-Request-Id` header write, and the invocation of each closure (filters
by layer and registration index, the handler, the server-error handler). -/
inductive Event where
  | startLog
  | xRequestId
  | globalPre (i : Nat)
  | groupPre (i : Nat)
  | routeFilter (i : Nat)
  | handler
  | groupPost (i : Nat)
  | globalPost (i : Nat)
  | panicLog
  | serverErrorCall
  | completeLog (id : String) (status : Int)
deriving DecidableEq

/-- Holds exactly for a completion log record. -/
def isComplete : Event → Bool
  | Event.completeLog _ _ => true
  | _ => false

/-- Result of invoking a `FilterHandler` closure: a normal return carrying
the mutated state and the `keepGoing` boolean, or a panic (the mutations
made before the panic persist, since context and writer are shared). -/
inductive FilterRes (α : Type) where
  | ret (s : ReqState α) (keepGoing : Bool)
  | panicked (s : ReqState α)

/-- Result of invoking a `Handler` closure: normal return or panic. -/
inductive HandlerRes (α : Type) where
  | ret (s : ReqState α)
  | panicked (s : ReqState α)

/-- The `FilterHandler` type `func(c *Context) bool`. -/
def FilterHandler (α : Type) : Type := ReqState α → FilterRes α

/-- The `Handler` type `func(c *Context)`. -/
def Handler (α : Type) : Type := ReqState α → HandlerRes α

/-- How one loop over closures ended. -/
inductive Signal where
  | passed
  | halted
  | panicked
deriving DecidableEq

/-- The `for _, f := range filters` loop over boolean filters: runs each
filter in order, stops at the first `false` (halted) or panic; `tag i` is
the trace event for invoking the filter at index `i`. -/
def runFilterChain (tag : Nat → Event) : List (FilterHandler α) → Nat → ReqState α → ReqState α × List Event × Signal
  | [], _, s => (s, [], Signal.passed)
  | f :: fs, i, s =>
    match f s with
    | FilterRes.panicked s' => (s', [tag i], Signal.panicked)
    | FilterRes.ret s' false => (s', [tag i], Signal.halted)
    | FilterRes.ret s' true =>
      let rest := runFilterChain tag fs (i + 1) s'
      (rest.1, tag i :: rest.2.1, rest.2.2)

/-- The `for _, f := range postfilters` loop: runs every handler in order;
only a panic stops it early. -/
def runPostChain (tag : Nat → Event) : List (Handler α) → Nat → ReqState α → ReqState α × List Event × Signal
  | [], _, s => (s, [], Signal.passed)
  | h :: hs, i, s =>
    match h s with
    | HandlerRes.panicked s' => (s', [tag i], Signal.panicked)
    | HandlerRes.ret s' =>
      let rest := runPostChain tag hs (i + 1) s'
      (rest.1, tag i :: rest.2.1, rest.2.2)

/-- The body of the composed route function built by `addroute` (between
the recovery boundary and the `return`s): global pre-filters, then the
route-specific filters, then the handler, then the global post-filters.
The boolean records whether a panic escaped the body. -/
def routeChain (pre rfs : List (FilterHandler α)) (h : Handler α) (post : List (Handler α)) (s : ReqState α) : ReqState α × List Event × Bool :=
  let g := runFilterChain Event.globalPre pre 0 s
  match g.2.2 with
  | Signal.panicked => (g.1, g.2.1, true)
  | Signal.halted => (g.1, g.2.1, false)
  | Signal.passed =>
    let r := runFilterChain Event.routeFilter rfs 0 g.1
    match r.2.2 with
    | Signal.panicked => (r.1, g.2.1 ++ r.2.1, true)
    | Signal.halted => (r.1, g.2.1 ++ r.2.1, false)
    | Signal.passed =>
      match h r.1 with
      | HandlerRes.panicked s' => (s', g.2.1 ++ r.2.1 ++ [Event.handler], true)
      | HandlerRes.ret s' =>
        let p := runPostChain Event.globalPost post 0 s'
        (p.1, g.2.1 ++ r.2.1 ++ [Event.handler] ++ p.2.1,
          match p.2.2 with
          | Signal.panicked => true
          | _ => false)

/-- The body of the composed route function built by `AddGroup`: global
pre-filters, group pre-filters, the route's own filters, the handler,
group post-filters, then global post-filters. -/
def groupChain (pre gpre rfs : List (FilterHandler α)) (h : Handler α) (gpost post : List (Handler α)) (s : ReqState α) : ReqState α × List Event × Bool :=
  let g := runFilterChain Event.globalPre pre 0 s
  match g.2.2 with
  | Signal.panicked => (g.1, g.2.1, true)
  | Signal.halted => (g.1, g.2.1, false)
  | Signal.passed =>
    let gp := runFilterChain Event.groupPre gpre 0 g.1
    match gp.2.2 with
    | Signal.panicked => (gp.1, g.2.1 ++ gp.2.1, true)
    | Signal.halted => (gp.1, g.2.1 ++ gp.2.1, false)
    | Signal.passed =>
      let r := runFilterChain Event.routeFilter rfs 0 gp.1
      match r.2.2 with
      | Signal.panicked => (r.1, g.2.1 ++ gp.2.1 ++ r.2.1, true)
      | Signal.halted => (r.1, g.2.1 ++ gp.2.1 ++ r.2.1, false)
      | Signal.passed =>
        match h r.1 with
        | HandlerRes.panicked s' => (s', g.2.1 ++ gp.2.1 ++ r.2.1 ++ [Event.handler], true)
        | HandlerRes.ret s' =>
          let q := runPostChain Event.groupPost gpost 0 s'
          match q.2.2 with
          | Signal.panicked =>
            (q.1, g.2.1 ++ gp.2.1 ++ r.2.1 ++ [Event.handler] ++ q.2.1, true)
          | _ =>
            let p := runPostChain Event.globalPost post 0 q.1
            (p.1, g.2.1 ++ gp.2.1 ++ r.2.1 ++ [Event.handler] ++ q.2.1 ++ p.2.1,
              match p.2.2 with
              | Signal.panicked => true
              | _ => false)

/-- The deferred recovery block shared by `addroute` and `AddGroup`: when
the body returns normally it logs the completion record; when a panic is
recovered it logs the panic, and then either invokes the configured
server-error handler and returns (skipping the completion record — the
`return` statement inside the deferred function precedes the completion
`log.Printf`), or, with no server-error handler configured, falls through
to the completion record. -/
def runGuarded (body : ReqState α → ReqState α × List Event × Bool) (serverError : Option (Handler α)) (s : ReqState α) : ReqState α × List Event :=
  let b := body s
  if b.2.2 then
    match serverError with
    | some seh =>
      match seh b.1 with
      | HandlerRes.ret s2 => (s2, b.2.1 ++ [Event.panicLog, Event.serverErrorCall])
      | HandlerRes.panicked s2 => (s2, b.2.1 ++ [Event.panicLog, Event.serverErrorCall])
    | none => (b.1, b.2.1 ++ [Event.panicLog, Event.completeLog b.1.ctx.ID b.1.ctx.status])
  else
    (b.1, b.2.1 ++ [Event.completeLog b.1.ctx.ID b.1.ctx.status])

/-- The `w.Header().Set("X-Request-Id", ctx.ID)` step that only the
httprouter-variant `addroute` (cobalt.go) performs, before any filter. -/
def cobaltInit (s : ReqState α) : ReqState α :=
  { s with resp := headerSet s.resp "X-Request-Id" s.ctx.ID }

/-- The body of the httprouter-variant `addroute` route function
(cobalt.go), inside the recovery boundary: start log, `X-Request-Id`
header, then the filter chains, handler and post-filters. -/
def cobaltBody (pre rfs : List (FilterHandler α)) (h : Handler α) (post : List (Handler α)) (s0 : ReqState α) : ReqState α × List Event × Bool :=
  let b := routeChain pre rfs h post (cobaltInit s0)
  (b.1, Event.startLog :: Event.xRequestId :: b.2.1, b.2.2)

/-- The body of the httptreemux-variant `addroute` route function, inside
the recovery boundary: start log, then the filter chains, handler and
post-filters — no `X-Request-Id` header. -/
def treemuxBody (pre rfs : List (FilterHandler α)) (h : Handler α) (post : List (Handler α)) (s0 : ReqState α) : ReqState α × List Event × Bool :=
  let b := routeChain pre rfs h post s0
  (b.1, Event.startLog :: b.2.1, b.2.2)

/-- The body of the route function `AddGroup` registers for a group route,
inside the recovery boundary — no `X-Request-Id` header. -/
def groupBody (pre gpre rfs : List (FilterHandler α)) (h : Handler α) (gpost post : List (Handler α)) (s0 : ReqState α) : ReqState α × List Event × Bool :=
  let b := groupChain pre gpre rfs h gpost post s0
  (b.1, Event.startLog :: b.2.1, b.2.2)

/-- The composed route function registered by the httprouter-variant
`addroute` (cobalt.go): fresh context, recovery boundary, start log,
`X-Request-Id` header, filter chains, handler, post-filters. -/
def dispatchCobalt (pre rfs : List (FilterHandler α)) (h : Handler α) (post : List (Handler α)) (serverError : Option (Handler α)) (id : String) (p : Option (List (String × String))) (coder : Coder α) (resp : HttpResponse) : ReqState α × List Event :=
  runGuarded (cobaltBody pre rfs h post) serverError
    { ctx := NewContext id p coder, resp := resp }

/-- The composed route function registered by the httptreemux-variant
`addroute`: identical except that no `X-Request-Id` header is set. -/
def dispatchTreemux (pre rfs : List (FilterHandler α)) (h : Handler α) (post : List (Handler α)) (serverError : Option (Handler α)) (id : String) (p : Option (List (String × String))) (coder : Coder α) (resp : HttpResponse) : ReqState α × List Event :=
  runGuarded (treemuxBody pre rfs h post) serverError
    { ctx := NewContext id p coder, resp := resp }

/-- The composed route function registered for each group route by
`AddGroup`: like the treemux `addroute` (no `X-Request-Id`), with the group
pre/post layers around the route filters and handler. -/
def dispatchGroup (pre gpre rfs : List (FilterHandler α)) (h : Handler α) (gpost post : List (Handler α)) (serverError : Option (Handler α)) (id : String) (p : Option (List (String × String))) (coder : Coder α) (resp : HttpResponse) : ReqState α × List Event :=
  runGuarded (groupBody pre gpre rfs h gpost post) serverError
    { ctx := NewContext id p coder, resp := resp }

/-- The wrapper installed by `AddNotFoundHandler`: a fresh context with a
`nil` parameter map, then the handler — no filters, no recovery boundary,
no log records. -/
def notFoundDispatch (h : Handler α) (id : String) (coder : Coder α) (resp : HttpResponse) : ReqState α × List Event :=
  let s : ReqState α := { ctx := NewContext id none coder, resp := resp }
  match h s with
  | HandlerRes.ret s' => (s', [Event.handler])
  | HandlerRes.panicked s' => (s', [Event.handler])

/-- Events `tag i, tag (i+1), ..., tag (i+n-1)`: the trace of an
uninterrupted run of `n` consecutive closures of one layer. -/
def tagRun (tag : Nat → Event) (i n : Nat) : List Event :=
  match n with
  | 0 => []
  | Nat.succ m => tag i :: tagRun tag (i + 1) m

/-- A filter that never panics, as a `FilterHandler`. -/
def liftFilter (f : ReqState α → ReqState α × Bool) : FilterHandler α :=
  fun s => FilterRes.ret (f s).1 (f s).2

/-- A handler that never panics, as a `Handler`. -/
def liftHandler (h : ReqState α → ReqState α) : Handler α :=
  fun s => HandlerRes.ret (h s)

/-- A concrete coder for the concrete evaluations below (the JSON encoder
of the test suite, with string values passed through verbatim). -/
def strCoder : Coder String :=
  { contentType := "application/json;charset=UTF-8", encode := fun v => v }

/-- A concrete pristine request state. -/
def st0 : ReqState String :=
  { ctx := NewContext "req-0" none strCoder, resp := emptyResponse }

/-- A concrete context with one matched route parameter. -/
def ctx7 : Context String := NewContext "req-7" (some [("id", "42")]) strCoder

/-- A concrete fresh context for the scratch-data laws. -/
def ctx10 : Context String := NewContext "req-10" none strCoder

/-- Every event of a `tagRun` is a tag event. -/
theorem mem_tagRun (tag : Nat → Event) (n : Nat) :
    ∀ (i : Nat) (e : Event), e ∈ tagRun tag i n → ∃ j, e = tag j := by
  induction n with
  | zero => intro i e he; simp [tagRun] at he
  | succ m ih =>
    intro i e he
    simp only [tagRun, List.mem_cons] at he
    rcases he with he | he
    · exact ⟨i, he⟩
    · exact ih (i + 1) e he

/-- An event that is no tag event is not in a `tagRun`. -/
theorem not_mem_tagRun (tag : Nat → Event) (n i : Nat) (e : Event) (hne : ∀ j, e ≠ tag j) :
    e ∉ tagRun tag i n := by
  intro he
  obtain ⟨j, hj⟩ := mem_tagRun tag n i e he
  exact hne j hj

/-- A filter loop over non-panicking filters either passes with the full
run of tag events, or halts at some index `j` with exactly the events up
to and including `j`. -/
theorem runFilterChain_lift {α : Type} (tag : Nat → Event) (fs : List (ReqState α → ReqState α × Bool)) :
    ∀ (i : Nat) (s : ReqState α),
      ((runFilterChain tag (fs.map liftFilter) i s).2.1 = tagRun tag i fs.length ∧
       (runFilterChain tag (fs.map liftFilter) i s).2.2 = Signal.passed) ∨
      (∃ j, j < fs.length ∧
       (runFilterChain tag (fs.map liftFilter) i s).2.1 = tagRun tag i (j + 1) ∧
       (runFilterChain tag (fs.map liftFilter) i s).2.2 = Signal.halted) := by
  induction fs with
  | nil => intro i s; left; exact ⟨rfl, rfl⟩
  | cons f fs ih =>
    intro i s
    cases hb : (f s).2 with
    | false =>
      right
      refine ⟨0, Nat.succ_pos _, ?_, ?_⟩ <;>
        simp [runFilterChain, liftFilter, hb, tagRun]
    | true =>
      rcases ih (i + 1) (f s).1 with ⟨htr, hsig⟩ | ⟨j, hj, htr, hsig⟩
      · left
        constructor <;>
          simp [runFilterChain, liftFilter, hb, tagRun, htr, hsig]
      · right
        refine ⟨j + 1, by simp only [List.length_cons]; omega, ?_, ?_⟩ <;>
          simp [runFilterChain, liftFilter, hb, tagRun, htr, hsig]

/-- A post-filter loop over non-panicking handlers always passes and runs
every handler in order. -/
theorem runPostChain_lift {α : Type} (tag : Nat → Event) (hs : List (ReqState α → ReqState α)) :
    ∀ (i : Nat) (s : ReqState α),
      (runPostChain tag (hs.map liftHandler) i s).2.1 = tagRun tag i hs.length ∧
      (runPostChain tag (hs.map liftHandler) i s).2.2 = Signal.passed := by
  induction hs with
  | nil => intro i s; exact ⟨rfl, rfl⟩
  | cons h hs ih =>
    intro i s
    constructor <;>
      simp [runPostChain, liftHandler, tagRun, (ih (i + 1) (h s)).1, (ih (i + 1) (h s)).2]

/-- Every event emitted by a filter loop is a tag event of its layer. -/
theorem mem_runFilterChain {α : Type} (tag : Nat → Event) (fs : List (FilterHandler α)) :
    ∀ (i : Nat) (s : ReqState α) (e : Event),
      e ∈ (runFilterChain tag fs i s).2.1 → ∃ j, e = tag j := by
  induction fs with
  | nil => intro i s e he; simp [runFilterChain] at he
  | cons f fs ih =>
    intro i s e he
    cases hf : f s with
    | panicked s' =>
      simp [runFilterChain, hf] at he
      exact ⟨i, he⟩
    | ret s' b =>
      cases b with
      | false =>
        simp [runFilterChain, hf] at he
        exact ⟨i, he⟩
      | true =>
        simp only [runFilterChain, hf, List.mem_cons] at he
        rcases he with he | he
        · exact ⟨i, he⟩
        · exact ih (i + 1) s' e he

/-- Every event emitted by a post-filter loop is a tag event of its layer. -/
theorem mem_runPostChain {α : Type} (tag : Nat → Event) (hs : List (Handler α)) :
    ∀ (i : Nat) (s : ReqState α) (e : Event),
      e ∈ (runPostChain tag hs i s).2.1 → ∃ j, e = tag j := by
  induction hs with
  | nil => intro i s e he; simp [runPostChain] at he
  | cons h hs ih =>
    intro i s e he
    cases hf : h s with
    | panicked s' =>
      simp [runPostChain, hf] at he
      exact ⟨i, he⟩
    | ret s' =>
      simp only [runPostChain, hf, List.mem_cons] at he
      rcases he with he | he
      · exact ⟨i, he⟩
      · exact ih (i + 1) s' e he

/-- Events of an `addroute` body trace: layer tags, or the handler. -/
theorem mem_routeChain {α : Type} (pre rfs : List (FilterHandler α)) (h : Handler α) (post : List (Handler α)) (s : ReqState α) (e : Event)
    (he : e ∈ (routeChain pre rfs h post s).2.1) :
    (∃ j, e = Event.globalPre j) ∨ (∃ j, e = Event.routeFilter j) ∨ e = Event.handler ∨ (∃ j, e = Event.globalPost j) := by
  simp only [routeChain] at he
  cases h1 : (runFilterChain Event.globalPre pre 0 s).2.2 with
  | panicked =>
    simp only [h1] at he
    exact Or.inl (mem_runFilterChain _ _ _ _ _ he)
  | halted =>
    simp only [h1] at he
    exact Or.inl (mem_runFilterChain _ _ _ _ _ he)
  | passed =>
    simp only [h1] at he
    cases h2 : (runFilterChain Event.routeFilter rfs 0 (runFilterChain Event.globalPre pre 0 s).1).2.2 with
    | panicked =>
      simp only [h2, List.mem_append] at he
      rcases he with he | he
      · exact Or.inl (mem_runFilterChain _ _ _ _ _ he)
      · exact Or.inr (Or.inl (mem_runFilterChain _ _ _ _ _ he))
    | halted =>
      simp only [h2, List.mem_append] at he
      rcases he with he | he
      · exact Or.inl (mem_runFilterChain _ _ _ _ _ he)
      · exact Or.inr (Or.inl (mem_runFilterChain _ _ _ _ _ he))
    | passed =>
      simp only [h2] at he
      cases h3 : h (runFilterChain Event.routeFilter rfs 0 (runFilterChain Event.globalPre pre 0 s).1).1 with
      | panicked s' =>
        simp only [h3, List.mem_append, List.mem_singleton] at he
        rcases he with (he | he) | he
        · exact Or.inl (mem_runFilterChain _ _ _ _ _ he)
        · exact Or.inr (Or.inl (mem_runFilterChain _ _ _ _ _ he))
        · exact Or.inr (Or.inr (Or.inl he))
      | ret s' =>
        simp only [h3, List.mem_append, List.mem_singleton] at he
        rcases he with ((he | he) | he) | he
        · exact Or.inl (mem_runFilterChain _ _ _ _ _ he)
        · exact Or.inr (Or.inl (mem_runFilterChain _ _ _ _ _ he))
        · exact Or.inr (Or.inr (Or.inl he))
        · exact Or.inr (Or.inr (Or.inr (mem_runPostChain _ _ _ _ _ he)))

/-- Events of an `AddGroup` body trace: layer tags, or the handler. -/
theorem mem_groupChain {α : Type} (pre gpre rfs : List (FilterHandler α)) (h : Handler α) (gpost post : List (Handler α)) (s : ReqState α) (e : Event)
    (he : e ∈ (groupChain pre gpre rfs h gpost post s).2.1) :
    (∃ j, e = Event.globalPre j) ∨ (∃ j, e = Event.groupPre j) ∨ (∃ j, e = Event.routeFilter j) ∨
      e = Event.handler ∨ (∃ j, e = Event.groupPost j) ∨ (∃ j, e = Event.globalPost j) := by
  simp only [groupChain] at he
  cases h1 : (runFilterChain Event.globalPre pre 0 s).2.2 with
  | panicked =>
    simp only [h1] at he
    exact Or.inl (mem_runFilterChain _ _ _ _ _ he)
  | halted =>
    simp only [h1] at he
    exact Or.inl (mem_runFilterChain _ _ _ _ _ he)
  | passed =>
    simp only [h1] at he
    cases h2 : (runFilterChain Event.groupPre gpre 0 (runFilterChain Event.globalPre pre 0 s).1).2.2 with
    | panicked =>
      simp only [h2, List.mem_append] at he
      rcases he with he | he
      · exact Or.inl (mem_runFilterChain _ _ _ _ _ he)
      · exact Or.inr (Or.inl (mem_runFilterChain _ _ _ _ _ he))
    | halted =>
      simp only [h2, List.mem_append] at he
      rcases he with he | he
      · exact Or.inl (mem_runFilterChain _ _ _ _ _ he)
      · exact Or.inr (Or.inl (mem_runFilterChain _ _ _ _ _ he))
    | passed =>
      simp only [h2] at he
      cases h3 : (runFilterChain Event.routeFilter rfs 0 (runFilterChain Event.groupPre gpre 0 (runFilterChain Event.globalPre pre 0 s).1).1).2.2 with
      | panicked =>
        simp only [h3, List.mem_append] at he
        rcases he with (he | he) | he
        · exact Or.inl (mem_runFilterChain _ _ _ _ _ he)
        · exact Or.inr (Or.inl (mem_runFilterChain _ _ _ _ _ he))
        · exact Or.inr (Or.inr (Or.inl (mem_runFilterChain _ _ _ _ _ he)))
      | halted =>
        simp only [h3, List.mem_append] at he
        rcases he with (he | he) | he
        · exact Or.inl (mem_runFilterChain _ _ _ _ _ he)
        · exact Or.inr (Or.inl (mem_runFilterChain _ _ _ _ _ he))
        · exact Or.inr (Or.inr (Or.inl (mem_runFilterChain _ _ _ _ _ he)))
      | passed =>
        simp only [h3] at he
        cases h4 : h (runFilterChain Event.routeFilter rfs 0 (runFilterChain Event.groupPre gpre 0 (runFilterChain Event.globalPre pre 0 s).1).1).1 with
        | panicked s' =>
          simp only [h4, List.mem_append, List.mem_singleton] at he
          rcases he with ((he | he) | he) | he
          · exact Or.inl (mem_runFilterChain _ _ _ _ _ he)
          · exact Or.inr (Or.inl (mem_runFilterChain _ _ _ _ _ he))
          · exact Or.inr (Or.inr (Or.inl (mem_runFilterChain _ _ _ _ _ he)))
          · exact Or.inr (Or.inr (Or.inr (Or.inl he)))
        | ret s' =>
          simp only [h4] at he
          cases h5 : (runPostChain Event.groupPost gpost 0 s').2.2 with
          | panicked =>
            simp only [h5, List.mem_append, List.mem_singleton] at he
            rcases he with (((he | he) | he) | he) | he
            · exact Or.inl (mem_runFilterChain _ _ _ _ _ he)
            · exact Or.inr (Or.inl (mem_runFilterChain _ _ _ _ _ he))
            · exact Or.inr (Or.inr (Or.inl (mem_runFilterChain _ _ _ _ _ he)))
            · exact Or.inr (Or.inr (Or.inr (Or.inl he)))
            · exact Or.inr (Or.inr (Or.inr (Or.inr (Or.inl (mem_runPostChain _ _ _ _ _ he)))))
          | passed =>
            simp only [h5, List.mem_append, List.mem_singleton] at he
            rcases he with ((((he | he) | he) | he) | he) | he
            · exact Or.inl (mem_runFilterChain _ _ _ _ _ he)
            · exact Or.inr (Or.inl (mem_runFilterChain _ _ _ _ _ he))
            · exact Or.inr (Or.inr (Or.inl (mem_runFilterChain _ _ _ _ _ he)))
            · exact Or.inr (Or.inr (Or.inr (Or.inl he)))
            · exact Or.inr (Or.inr (Or.inr (Or.inr (Or.inl (mem_runPostChain _ _ _ _ _ he)))))
            · exact Or.inr (Or.inr (Or.inr (Or.inr (Or.inr (mem_runPostChain _ _ _ _ _ he)))))
          | halted =>
            simp only [h5, List.mem_append, List.mem_singleton] at he
            rcases he with ((((he | he) | he) | he) | he) | he
            · exact Or.inl (mem_runFilterChain _ _ _ _ _ he)
            · exact Or.inr (Or.inl (mem_runFilterChain _ _ _ _ _ he))
            · exact Or.inr (Or.inr (Or.inl (mem_runFilterChain _ _ _ _ _ he)))
            · exact Or.inr (Or.inr (Or.inr (Or.inl he)))
            · exact Or.inr (Or.inr (Or.inr (Or.inr (Or.inl (mem_runPostChain _ _ _ _ _ he)))))
            · exact Or.inr (Or.inr (Or.inr (Or.inr (Or.inr (mem_runPostChain _ _ _ _ _ he)))))

/-- The recovery boundary appends only panic-log, server-error-call and
completion-log events to the body's trace. -/
theorem runGuarded_trace {α : Type} (body : ReqState α → ReqState α × List Event × Bool) (se : Option (Handler α)) (s : ReqState α) :
    ∃ tail, (runGuarded body se s).2 = (body s).2.1 ++ tail ∧
      ∀ e ∈ tail, e = Event.panicLog ∨ e = Event.serverErrorCall ∨ isComplete e = true := by
  unfold runGuarded
  cases hb : (body s).2.2 with
  | false =>
    refine ⟨[Event.completeLog (body s).1.ctx.ID (body s).1.ctx.status], by simp [hb], ?_⟩
    intro e hee
    simp only [List.mem_singleton] at hee
    subst hee
    simp [isComplete]
  | true =>
    cases se with
    | none =>
      refine ⟨[Event.panicLog, Event.completeLog (body s).1.ctx.ID (body s).1.ctx.status], by simp [hb], ?_⟩
      intro e hee
      simp at hee
      rcases hee with hee | hee
      · exact Or.inl hee
      · right; right; subst hee; simp [isComplete]
    | some seh =>
      cases hseh : seh (body s).1 with
      | ret s2 =>
        refine ⟨[Event.panicLog, Event.serverErrorCall], by simp [hb, hseh], ?_⟩
        intro e hee
        simp at hee
        rcases hee with hee | hee
        · exact Or.inl hee
        · exact Or.inr (Or.inl hee)
      | panicked s2 =>
        refine ⟨[Event.panicLog, Event.serverErrorCall], by simp [hb, hseh], ?_⟩
        intro e hee
        simp at hee
        rcases hee with hee | hee
        · exact Or.inl hee
        · exact Or.inr (Or.inl hee)

/-- Completion-record accounting of the recovery boundary: exactly one
completion record unless a panic is handed to a configured server-error
handler, in which case none is emitted. -/
theorem countP_complete_runGuarded {α : Type} (body : ReqState α → ReqState α × List Event × Bool) (se : Option (Handler α)) (s : ReqState α)
    (hbody : ∀ e ∈ (body s).2.1, isComplete e = false) :
    (runGuarded body se s).2.countP isComplete =
      if (body s).2.2 = true ∧ se.isSome = true then 0 else 1 := by
  have h0 : (body s).2.1.countP isComplete = 0 := by
    refine List.countP_eq_zero.mpr ?_
    intro a ha
    simp [hbody a ha]
  unfold runGuarded
  cases hb : (body s).2.2 with
  | false => simp [hb, List.countP_append, List.countP_cons, h0, isComplete]
  | true =>
    cases se with
    | none => simp [hb, List.countP_append, List.countP_cons, h0, isComplete]
    | some seh =>
      cases hseh : seh (body s).1 with
      | ret s2 => simp [hb, hseh, List.countP_append, List.countP_cons, h0, isComplete]
      | panicked s2 => simp [hb, hseh, List.countP_append, List.countP_cons, h0, isComplete]

/-- No completion record is emitted inside the treemux `addroute` body. -/
theorem no_complete_treemuxBody {α : Type} (pre rfs : List (FilterHandler α)) (h : Handler α) (post : List (Handler α)) (s : ReqState α) :
    ∀ e ∈ (treemuxBody pre rfs h post s).2.1, isComplete e = false := by
  intro e he
  simp only [treemuxBody, List.mem_cons] at he
  rcases he with he | he
  · subst he; rfl
  · rcases mem_routeChain pre rfs h post s e he with ⟨j, hj⟩ | ⟨j, hj⟩ | hj | ⟨j, hj⟩ <;>
      subst hj <;> rfl

/-- No completion record is emitted inside the cobalt.go `addroute` body. -/
theorem no_complete_cobaltBody {α : Type} (pre rfs : List (FilterHandler α)) (h : Handler α) (post : List (Handler α)) (s : ReqState α) :
    ∀ e ∈ (cobaltBody pre rfs h post s).2.1, isComplete e = false := by
  intro e he
  simp only [cobaltBody, List.mem_cons] at he
  rcases he with he | he | he
  · subst he; rfl
  · subst he; rfl
  · rcases mem_routeChain pre rfs h post (cobaltInit s) e he with ⟨j, hj⟩ | ⟨j, hj⟩ | hj | ⟨j, hj⟩ <;>
      subst hj <;> rfl

/-- No completion record is emitted inside the `AddGroup` route body. -/
theorem no_complete_groupBody {α : Type} (pre gpre rfs : List (FilterHandler α)) (h : Handler α) (gpost post : List (Handler α)) (s : ReqState α) :
    ∀ e ∈ (groupBody pre gpre rfs h gpost post s).2.1, isComplete e = false := by
  intro e he
  simp only [groupBody, List.mem_cons] at he
  rcases he with he | he
  · subst he; rfl
  · rcases mem_groupChain pre gpre rfs h gpost post s e he with
      ⟨j, hj⟩ | ⟨j, hj⟩ | ⟨j, hj⟩ | hj | ⟨j, hj⟩ | ⟨j, hj⟩ <;>
      subst hj <;> rfl

/-- C1 (amended): for both `addroute` variants and for group routes,
exactly one completion log record is emitted per dispatched request on the
normal-completion, pre-filter-halt and
unrecovered-failure-without-server-error-handler paths; but when an
unrecovered failure is recovered with a server-error handler configured,
no completion record is emitted, because the `return` inside the deferred
function precedes the completion `log.Printf`. -/
theorem completion_record_emission {α : Type} (pre rfs : List (FilterHandler α)) (h : Handler α) (post : List (Handler α)) (se : Option (Handler α)) (id : String) (p : Option (List (String × String))) (coder : Coder α) (resp : HttpResponse) :
    ((dispatchTreemux pre rfs h post se id p coder resp).2.countP isComplete
      = if (treemuxBody pre rfs h post { ctx := NewContext id p coder, resp := resp }).2.2 = true ∧ se.isSome = true then 0 else 1) ∧
    ((dispatchCobalt pre rfs h post se id p coder resp).2.countP isComplete
      = if (cobaltBody pre rfs h post { ctx := NewContext id p coder, resp := resp }).2.2 = true ∧ se.isSome = true then 0 else 1) ∧
    (∀ gpre gpost,
      (dispatchGroup pre gpre rfs h gpost post se id p coder resp).2.countP isComplete
      = if (groupBody pre gpre rfs h gpost post { ctx := NewContext id p coder, resp := resp }).2.2 = true ∧ se.isSome = true then 0 else 1) := by
  refine ⟨?_, ?_, ?_⟩
  · unfold dispatchTreemux
    exact countP_complete_runGuarded _ se _ (no_complete_treemuxBody pre rfs h post _)
  · unfold dispatchCobalt
    exact countP_complete_runGuarded _ se _ (no_complete_cobaltBody pre rfs h post _)
  · intro gpre gpost
    unfold dispatchGroup
    exact countP_complete_runGuarded _ se _ (no_complete_groupBody pre gpre rfs h gpost post _)

/-- C1 counterexample: a concrete request whose handler panics while a
server-error handler is configured produces zero completion log records,
not the exactly-one the claim states for that outcome path. -/
theorem completion_record_skipped_cex :
    ((dispatchTreemux (α := String) [] [] (fun s => HandlerRes.panicked s) []
        (some (fun s => HandlerRes.ret s)) "req-1" none strCoder emptyResponse).2.countP isComplete) = 0 := by
  rfl

/-- C2: over the `addroute` body with non-panicking filters and handler,
either every global pre-filter, every route-specific filter, the handler
and every post-filter run, in registration order, or the run halts at the
first filter returning false — the trace then covers exactly the filters
up to and including the halting one, and neither any later filter nor the
handler nor any post-filter is invoked. -/
theorem prefilter_short_circuit {α : Type} (pre rfs : List (ReqState α → ReqState α × Bool)) (h : ReqState α → ReqState α) (post : List (ReqState α → ReqState α)) (s : ReqState α) :
    ∃ st tr, routeChain (pre.map liftFilter) (rfs.map liftFilter) (liftHandler h) (post.map liftHandler) s = (st, tr, false) ∧
      (tr = tagRun Event.globalPre 0 pre.length ++ tagRun Event.routeFilter 0 rfs.length
            ++ [Event.handler] ++ tagRun Event.globalPost 0 post.length ∨
       (∃ i, i < pre.length ∧ tr = tagRun Event.globalPre 0 (i + 1) ∧
          Event.handler ∉ tr ∧ (∀ j, Event.routeFilter j ∉ tr) ∧ (∀ j, Event.globalPost j ∉ tr)) ∨
       (∃ i, i < rfs.length ∧
          tr = tagRun Event.globalPre 0 pre.length ++ tagRun Event.routeFilter 0 (i + 1) ∧
          Event.handler ∉ tr ∧ (∀ j, Event.globalPost j ∉ tr))) := by
  rcases runFilterChain_lift Event.globalPre pre 0 s with ⟨htr1, hsig1⟩ | ⟨i, hi, htr1, hsig1⟩
  · rcases runFilterChain_lift Event.routeFilter rfs 0
        ((runFilterChain Event.globalPre (pre.map liftFilter) 0 s).1) with ⟨htr2, hsig2⟩ | ⟨j, hj, htr2, hsig2⟩
    · obtain ⟨htr4, hsig4⟩ := runPostChain_lift Event.globalPost post 0
        (h ((runFilterChain Event.routeFilter (rfs.map liftFilter) 0
          ((runFilterChain Event.globalPre (pre.map liftFilter) 0 s).1)).1))
      have heq : routeChain (pre.map liftFilter) (rfs.map liftFilter) (liftHandler h) (post.map liftHandler) s
          = ((runPostChain Event.globalPost (post.map liftHandler) 0
                (h ((runFilterChain Event.routeFilter (rfs.map liftFilter) 0
                  ((runFilterChain Event.globalPre (pre.map liftFilter) 0 s).1)).1))).1,
             tagRun Event.globalPre 0 pre.length ++ tagRun Event.routeFilter 0 rfs.length
               ++ [Event.handler] ++ tagRun Event.globalPost 0 post.length, false) := by
        simp only [routeChain, hsig1, hsig2, liftHandler, hsig4, htr1, htr2, htr4]
      exact ⟨_, _, heq, Or.inl rfl⟩
    · have heq : routeChain (pre.map liftFilter) (rfs.map liftFilter) (liftHandler h) (post.map liftHandler) s
          = ((runFilterChain Event.routeFilter (rfs.map liftFilter) 0
                ((runFilterChain Event.globalPre (pre.map liftFilter) 0 s).1)).1,
             tagRun Event.globalPre 0 pre.length ++ tagRun Event.routeFilter 0 (j + 1), false) := by
        simp only [routeChain, hsig1, hsig2, htr1, htr2]
      refine ⟨_, _, heq, Or.inr (Or.inr ⟨j, hj, rfl, ?_, ?_⟩)⟩
      · intro hmem
        rcases List.mem_append.mp hmem with hmem | hmem <;>
          · obtain ⟨j', hj'⟩ := mem_tagRun _ _ _ _ hmem
            exact Event.noConfusion hj'
      · intro k hmem
        rcases List.mem_append.mp hmem with hmem | hmem <;>
          · obtain ⟨j', hj'⟩ := mem_tagRun _ _ _ _ hmem
            exact Event.noConfusion hj'
  · have heq : routeChain (pre.map liftFilter) (rfs.map liftFilter) (liftHandler h) (post.map liftHandler) s
        = ((runFilterChain Event.globalPre (pre.map liftFilter) 0 s).1,
           tagRun Event.globalPre 0 (i + 1), false) := by
      simp only [routeChain, hsig1, htr1]
    refine ⟨_, _, heq, Or.inr (Or.inl ⟨i, hi, rfl, ?_, ?_, ?_⟩)⟩
    · intro hmem
      obtain ⟨j', hj'⟩ := mem_tagRun _ _ _ _ hmem
      exact Event.noConfusion hj'
    · intro k hmem
      obtain ⟨j', hj'⟩ := mem_tagRun _ _ _ _ hmem
      exact Event.noConfusion hj'
    · intro k hmem
      obtain ⟨j', hj'⟩ := mem_tagRun _ _ _ _ hmem
      exact Event.noConfusion hj'

/-- C3: over the `AddGroup` route body with non-panicking filters and
handler, either the run executes, in order, every Dispatcher global
pre-filter, every group pre-filter, every route-specific filter, the
handler, every group post-filter and every Dispatcher global post-filter;
or some filter returns false and the run halts before the handler, the
trace covering exactly the filters up to and including the halting one. -/
theorem group_filter_order {α : Type} (pre gpre rfs : List (ReqState α → ReqState α × Bool)) (h : ReqState α → ReqState α) (gpost post : List (ReqState α → ReqState α)) (s : ReqState α) :
    ∃ st tr, groupChain (pre.map liftFilter) (gpre.map liftFilter) (rfs.map liftFilter)
        (liftHandler h) (gpost.map liftHandler) (post.map liftHandler) s = (st, tr, false) ∧
      (tr = tagRun Event.globalPre 0 pre.length ++ tagRun Event.groupPre 0 gpre.length
            ++ tagRun Event.routeFilter 0 rfs.length ++ [Event.handler]
            ++ tagRun Event.groupPost 0 gpost.length ++ tagRun Event.globalPost 0 post.length ∨
       (∃ i, i < pre.length ∧ tr = tagRun Event.globalPre 0 (i + 1) ∧ Event.handler ∉ tr) ∨
       (∃ i, i < gpre.length ∧
          tr = tagRun Event.globalPre 0 pre.length ++ tagRun Event.groupPre 0 (i + 1) ∧
          Event.handler ∉ tr) ∨
       (∃ i, i < rfs.length ∧
          tr = tagRun Event.globalPre 0 pre.length ++ tagRun Event.groupPre 0 gpre.length
               ++ tagRun Event.routeFilter 0 (i + 1) ∧
          Event.handler ∉ tr)) := by
  rcases runFilterChain_lift Event.globalPre pre 0 s with ⟨htr1, hsig1⟩ | ⟨i, hi, htr1, hsig1⟩
  · rcases runFilterChain_lift Event.groupPre gpre 0
        ((runFilterChain Event.globalPre (pre.map liftFilter) 0 s).1) with ⟨htr2, hsig2⟩ | ⟨i, hi, htr2, hsig2⟩
    · rcases runFilterChain_lift Event.routeFilter rfs 0
          ((runFilterChain Event.groupPre (gpre.map liftFilter) 0
            ((runFilterChain Event.globalPre (pre.map liftFilter) 0 s).1)).1) with ⟨htr3, hsig3⟩ | ⟨i, hi, htr3, hsig3⟩
      · obtain ⟨htr5, hsig5⟩ := runPostChain_lift Event.groupPost gpost 0
          (h ((runFilterChain Event.routeFilter (rfs.map liftFilter) 0
            ((runFilterChain Event.groupPre (gpre.map liftFilter) 0
              ((runFilterChain Event.globalPre (pre.map liftFilter) 0 s).1)).1)).1))
        obtain ⟨htr6, hsig6⟩ := runPostChain_lift Event.globalPost post 0
          ((runPostChain Event.groupPost (gpost.map liftHandler) 0
            (h ((runFilterChain Event.routeFilter (rfs.map liftFilter) 0
              ((runFilterChain Event.groupPre (gpre.map liftFilter) 0
                ((runFilterChain Event.globalPre (pre.map liftFilter) 0 s).1)).1)).1))).1)
        have heq : groupChain (pre.map liftFilter) (gpre.map liftFilter) (rfs.map liftFilter)
            (liftHandler h) (gpost.map liftHandler) (post.map liftHandler) s
            = ((runPostChain Event.globalPost (post.map liftHandler) 0
                  ((runPostChain Event.groupPost (gpost.map liftHandler) 0
                    (h ((runFilterChain Event.routeFilter (rfs.map liftFilter) 0
                      ((runFilterChain Event.groupPre (gpre.map liftFilter) 0
                        ((runFilterChain Event.globalPre (pre.map liftFilter) 0 s).1)).1)).1))).1)).1,
               tagRun Event.globalPre 0 pre.length ++ tagRun Event.groupPre 0 gpre.length
                 ++ tagRun Event.routeFilter 0 rfs.length ++ [Event.handler]
                 ++ tagRun Event.groupPost 0 gpost.length ++ tagRun Event.globalPost 0 post.length,
               false) := by
          simp only [groupChain, hsig1, hsig2, hsig3, liftHandler, hsig5, hsig6,
            htr1, htr2, htr3, htr5, htr6]
        exact ⟨_, _, heq, Or.inl rfl⟩
      · have heq : groupChain (pre.map liftFilter) (gpre.map liftFilter) (rfs.map liftFilter)
            (liftHandler h) (gpost.map liftHandler) (post.map liftHandler) s
            = ((runFilterChain Event.routeFilter (rfs.map liftFilter) 0
                  ((runFilterChain Event.groupPre (gpre.map liftFilter) 0
                    ((runFilterChain Event.globalPre (pre.map liftFilter) 0 s).1)).1)).1,
               tagRun Event.globalPre 0 pre.length ++ tagRun Event.groupPre 0 gpre.length
                 ++ tagRun Event.routeFilter 0 (i + 1), false) := by
          simp only [groupChain, hsig1, hsig2, hsig3, htr1, htr2, htr3]
        refine ⟨_, _, heq, Or.inr (Or.inr (Or.inr ⟨i, hi, rfl, ?_⟩))⟩
        intro hmem
        rcases List.mem_append.mp hmem with hmem | hmem
        · rcases List.mem_append.mp hmem with hmem | hmem <;>
            · obtain ⟨j', hj'⟩ := mem_tagRun _ _ _ _ hmem
              exact Event.noConfusion hj'
        · obtain ⟨j', hj'⟩ := mem_tagRun _ _ _ _ hmem
          exact Event.noConfusion hj'
    · have heq : groupChain (pre.map liftFilter) (gpre.map liftFilter) (rfs.map liftFilter)
          (liftHandler h) (gpost.map liftHandler) (post.map liftHandler) s
          = ((runFilterChain Event.groupPre (gpre.map liftFilter) 0
                ((runFilterChain Event.globalPre (pre.map liftFilter) 0 s).1)).1,
             tagRun Event.globalPre 0 pre.length ++ tagRun Event.groupPre 0 (i + 1), false) := by
        simp only [groupChain, hsig1, hsig2, htr1, htr2]
      refine ⟨_, _, heq, Or.inr (Or.inr (Or.inl ⟨i, hi, rfl, ?_⟩))⟩
      intro hmem
      rcases List.mem_append.mp hmem with hmem | hmem <;>
        · obtain ⟨j', hj'⟩ := mem_tagRun _ _ _ _ hmem
          exact Event.noConfusion hj'
  · have heq : groupChain (pre.map liftFilter) (gpre.map liftFilter) (rfs.map liftFilter)
        (liftHandler h) (gpost.map liftHandler) (post.map liftHandler) s
        = ((runFilterChain Event.globalPre (pre.map liftFilter) 0 s).1,
           tagRun Event.globalPre 0 (i + 1), false) := by
      simp only [groupChain, hsig1, htr1]
    refine ⟨_, _, heq, Or.inr (Or.inl ⟨i, hi, rfl, ?_⟩)⟩
    intro hmem
    obtain ⟨j', hj'⟩ := mem_tagRun _ _ _ _ hmem
    exact Event.noConfusion hj'

/-- C4 (amended): the httprouter-variant `addroute` (cobalt.go) sets the
`X-Request-Id` response header to the context's correlation identity
before any filter runs; the httptreemux-variant `addroute` and the
`AddGroup` route functions never set it — so the claim's coverage of
group routes fails on the code. -/
theorem request_id_header {α : Type} (pre rfs : List (FilterHandler α)) (h : Handler α) (post : List (Handler α)) (se : Option (Handler α)) (id : String) (p : Option (List (String × String))) (coder : Coder α) (resp : HttpResponse) :
    (headerGet (cobaltInit { ctx := NewContext id p coder (α := α), resp := resp }).resp "X-Request-Id"
        = some ((NewContext id p coder (α := α)).ID)) ∧
    ((NewContext id p coder (α := α)).ID = id) ∧
    (∃ tr, (dispatchCobalt pre rfs h post se id p coder resp).2
        = Event.startLog :: Event.xRequestId :: tr) ∧
    (Event.xRequestId ∉ (dispatchTreemux pre rfs h post se id p coder resp).2) ∧
    (∀ gpre gpost, Event.xRequestId ∉ (dispatchGroup pre gpre rfs h gpost post se id p coder resp).2) := by
  refine ⟨?_, rfl, ?_, ?_, ?_⟩
  · simp [cobaltInit, headerGet, headerSet, List.lookup]
  · obtain ⟨tail, htail, -⟩ := runGuarded_trace (cobaltBody pre rfs h post) se
      { ctx := NewContext id p coder, resp := resp }
    refine ⟨(routeChain pre rfs h post (cobaltInit { ctx := NewContext id p coder, resp := resp })).2.1 ++ tail, ?_⟩
    unfold dispatchCobalt
    rw [htail]
    simp [cobaltBody]
  · intro hmem
    obtain ⟨tail, htail, htailmem⟩ := runGuarded_trace (treemuxBody pre rfs h post) se
      { ctx := NewContext id p coder, resp := resp }
    unfold dispatchTreemux at hmem
    rw [htail] at hmem
    rcases List.mem_append.mp hmem with hmem | hmem
    · simp only [treemuxBody, List.mem_cons] at hmem
      rcases hmem with hmem | hmem
      · exact Event.noConfusion hmem
      · rcases mem_routeChain pre rfs h post _ _ hmem with ⟨j, hj⟩ | ⟨j, hj⟩ | hj | ⟨j, hj⟩ <;>
          exact Event.noConfusion hj
    · rcases htailmem _ hmem with hj | hj | hj
      · exact Event.noConfusion hj
      · exact Event.noConfusion hj
      · simp [isComplete] at hj
  · intro gpre gpost hmem
    obtain ⟨tail, htail, htailmem⟩ := runGuarded_trace (groupBody pre gpre rfs h gpost post) se
      { ctx := NewContext id p coder, resp := resp }
    unfold dispatchGroup at hmem
    rw [htail] at hmem
    rcases List.mem_append.mp hmem with hmem | hmem
    · simp only [groupBody, List.mem_cons] at hmem
      rcases hmem with hmem | hmem
      · exact Event.noConfusion hmem
      · rcases mem_groupChain pre gpre rfs h gpost post _ _ hmem with
          ⟨j, hj⟩ | ⟨j, hj⟩ | ⟨j, hj⟩ | hj | ⟨j, hj⟩ | ⟨j, hj⟩ <;>
          exact Event.noConfusion hj
    · rcases htailmem _ hmem with hj | hj | hj
      · exact Event.noConfusion hj
      · exact Event.noConfusion hj
      · simp [isComplete] at hj

/-- C4 counterexample: a concrete dispatched (non-not-found) group route
produces a response with no `X-Request-Id` header at all, contradicting
the claim that every dispatched route carries the header. -/
theorem group_route_no_request_id_cex :
    headerGet (dispatchGroup (α := String) [] [] [] (fun s => HandlerRes.ret s) [] [] none
        "req-4" (some []) strCoder emptyResponse).1.resp "X-Request-Id" = none := by
  rfl

/-- C8: the `AddNotFoundHandler` wrapper invokes the configured handler on
a freshly constructed context whose parameter mapping is the nil map (so
every `RouteValue` is empty and the scratch map is empty), and the trace
of the not-found path is exactly the handler invocation — no filter of any
layer runs before or after it. -/
theorem not_found_no_filters {α : Type} (h : Handler α) (id : String) (coder : Coder α) (resp : HttpResponse) :
    (notFoundDispatch h id coder resp
        = ((match h { ctx := NewContext id none coder, resp := resp } with
            | HandlerRes.ret s' => s'
            | HandlerRes.panicked s' => s'), [Event.handler])) ∧
    ((NewContext id none coder : Context α).params = none) ∧
    (∀ k, (NewContext id none coder : Context α).RouteValue k = "") ∧
    (∀ k, (NewContext id none coder : Context α).GetData k = none) := by
  refine ⟨?_, rfl, ?_, ?_⟩
  · cases hh : h { ctx := NewContext id none coder, resp := resp } with
    | ret s' => simp [notFoundDispatch, hh]
    | panicked s' => simp [notFoundDispatch, hh]
  · intro k
    simp [Context.RouteValue, mapLookup, NewContext]
  · intro k
    simp [Context.GetData, NewContext, List.lookup]

/-- C7: `RouteValue` is total — it returns the matched path-parameter value
when the name is present and the empty string when absent (including on a
`nil` parameter map), and it never fails. -/
theorem routeValue_total {α : Type} (c : Context α) (key : String) :
    (∀ v, mapLookup c.params key = some v → c.RouteValue key = v) ∧
    (mapLookup c.params key = none → c.RouteValue key = "") := by
  constructor
  · intro v hv
    simp [Context.RouteValue, hv]
  · intro hv
    simp [Context.RouteValue, hv]

/-- Witness for `routeValue_total`: a present key yields its matched value
and an absent key yields the empty string, on a concrete context. -/
theorem routeValue_total_witness :
    Context.RouteValue ctx7 "id" = "42" ∧ Context.RouteValue ctx7 "missing" = "" :=
  ⟨(routeValue_total ctx7 "id").1 "42" (by decide),
   (routeValue_total ctx7 "missing").2 (by decide)⟩

/-- C10: scratch-data laws — `GetData k` after `SetData k v` returns `v`
(the newest write for `k` wins whatever the earlier writes were), writes to
other keys are invisible, and a freshly constructed context answers `none`
for every key (so data set on one context is never seen through another,
contexts being independent values with fresh empty maps). -/
theorem scratch_data_laws {α : Type} (c : Context α) (k : String) (v : α) :
    ((c.SetData k v).GetData k = some v) ∧
    (∀ k', k' ≠ k → (c.SetData k v).GetData k' = c.GetData k') ∧
    (∀ (id : String) (p : Option (List (String × String))) (coder : Coder α) (k'' : String),
      (NewContext id p coder).GetData k'' = none) := by
  refine ⟨?_, ?_, ?_⟩
  · simp [Context.GetData, Context.SetData, List.lookup]
  · intro k' hk
    have hb : (k' == k) = false := beq_eq_false_iff_ne.mpr hk
    simp [Context.GetData, Context.SetData, List.lookup, hb]
  · intro id p coder k''
    simp [Context.GetData, NewContext, List.lookup]

/-- Witness for `scratch_data_laws` on concrete keys and a concrete context. -/
theorem scratch_data_laws_witness :
    ((ctx10.SetData "a" "1").GetData "a" = some "1") ∧
    ((ctx10.SetData "a" "1").GetData "b" = ctx10.GetData "b") ∧
    ((NewContext "req-10b" none strCoder : Context String).GetData "a" = none) :=
  ⟨(scratch_data_laws ctx10 "a" "1").1,
   (scratch_data_laws ctx10 "a" "1").2.1 "b" (by decide),
   (scratch_data_laws ctx10 "a" "1").2.2 "req-10b" none strCoder "a"⟩

/-- C9: `Error(body, status)` passes its status argument into
`serveEncoded`'s seconds parameter and `0` into the status parameter, so
for `status > 0` the response is written with HTTP status 200, the
`Cache-control` header carries the supplied status as the max-age TTL, and
the context records status 200. -/
theorem error_swaps_status_into_ttl {α : Type} (s : ReqState α) (body : Option α) (status : Int) (hpos : status > 0) :
    ((Error s body status).resp.statusWrites = s.resp.statusWrites ++ [200]) ∧
    (headerGet (Error s body status).resp CacheControlHeader = some (cacheValue status)) ∧
    ((Error s body status).ctx.status = 200) := by
  cases body with
  | none =>
    refine ⟨?_, ?_, ?_⟩ <;>
      simp [Error, serveEncoded, headerGet, headerSet, writeHeader, write, hpos, List.lookup]
  | some v =>
    refine ⟨?_, ?_, ?_⟩ <;>
      simp [Error, serveEncoded, headerGet, headerSet, writeHeader, write, hpos, List.lookup]

/-- Witness for `error_swaps_status_into_ttl` at `status = 404`. -/
theorem error_swaps_status_into_ttl_witness :
    ((Error st0 (some "oops") 404).resp.statusWrites = st0.resp.statusWrites ++ [200]) ∧
    (headerGet (Error st0 (some "oops") 404).resp CacheControlHeader = some (cacheValue 404)) ∧
    ((Error st0 (some "oops") 404).ctx.status = 200) :=
  error_swaps_status_into_ttl st0 (some "oops") 404 (by decide)

/-- C6 amended: `serveEncoded` (hence `Serve`, `ServeWithStatus`,
`ServeCachedWithStatus`) and `ServeStatus` record the final status on the
context and default a 0 status to 200; `ServeResponse` writes the supplied
status verbatim without defaulting and leaves the context's status field
unchanged. -/
theorem serve_status_recorded {α : Type} (s : ReqState α) (val : Option α) (status seconds : Int) (payload contentType : String) :
    ((serveEncoded s val status seconds).ctx.status = if status = 0 then 200 else status) ∧
    ((Serve s val).ctx.status = 200) ∧
    ((ServeWithStatus s val status).ctx.status = if status = 0 then 200 else status) ∧
    ((ServeCachedWithStatus s val status seconds).ctx.status = if status = 0 then 200 else status) ∧
    ((ServeStatus s status).ctx.status = if status = 0 then 200 else status) ∧
    ((ServeStatus s status).resp.statusWrites = s.resp.statusWrites ++ [if status = 0 then 200 else status]) ∧
    ((ServeResponse s payload status contentType).ctx.status = s.ctx.status) ∧
    ((ServeResponse s payload status contentType).resp.statusWrites = s.resp.statusWrites ++ [status]) := by
  refine ⟨?_, ?_, ?_, ?_, ?_, ?_, ?_, ?_⟩ <;>
    cases val <;>
      by_cases hz : status = 0 <;>
        by_cases hs : seconds > 0 <;>
          by_cases hc : contentType = "" <;>
            simp [serveEncoded, Serve, ServeWithStatus, ServeCachedWithStatus, ServeStatus,
              ServeResponse, headerSet, writeHeader, write, hz, hs, hc]

/-- C6 counterexample: `ServeResponse` with status 404 leaves the context's
recorded status at 0, and with status 0 it writes 0 rather than 200. -/
theorem serve_response_status_not_recorded_cex :
    ((ServeResponse st0 "body" 404 "text/plain").ctx.status ≠ 404) ∧
    ((ServeResponse st0 "" 0 "").resp.statusWrites = [0]) := by decide

/-- C5 amended: the `serveEncoded`-based variants (`Serve`,
`ServeWithStatus`, `ServeCachedWithStatus`) set `Content-Type` to the
coder's declared content type, set `Cache-control` exactly when a positive
TTL is supplied, write the (defaulted) status and then the encoded body,
skipping the body when the value is absent; `ServeStatus` writes only the
status (no headers, no body); `ServeResponse` sets `Content-Type` to the
supplied content type when non-empty and always writes its byte payload
verbatim. -/
theorem serve_response_surface {α : Type} (s : ReqState α) (val : Option α) (status seconds : Int) (payload contentType : String) :
    (headerGet (serveEncoded s val status seconds).resp "Content-Type" = some s.ctx.coder.contentType) ∧
    (seconds > 0 → headerGet (serveEncoded s val status seconds).resp CacheControlHeader = some (cacheValue seconds)) ∧
    (seconds ≤ 0 → headerGet (serveEncoded s val status seconds).resp CacheControlHeader = headerGet s.resp CacheControlHeader) ∧
    ((serveEncoded s val status seconds).resp.statusWrites = s.resp.statusWrites ++ [if status = 0 then 200 else status]) ∧
    ((serveEncoded s val status seconds).resp.body
      = s.resp.body ++ (match val with | some v => [s.ctx.coder.encode v] | none => [])) ∧
    (Serve s val = serveEncoded s val 200 0) ∧
    (ServeWithStatus s val status = serveEncoded s val status 0) ∧
    (ServeCachedWithStatus s val status seconds = serveEncoded s val status seconds) ∧
    ((ServeStatus s status).resp.headers = s.resp.headers) ∧
    ((ServeStatus s status).resp.body = s.resp.body) ∧
    (contentType ≠ "" → headerGet (ServeResponse s payload status contentType).resp "Content-Type" = some contentType) ∧
    (contentType = "" → (ServeResponse s payload status contentType).resp.headers = s.resp.headers) ∧
    ((ServeResponse s payload status contentType).resp.statusWrites = s.resp.statusWrites ++ [status]) ∧
    ((ServeResponse s payload status contentType).resp.body = s.resp.body ++ [payload]) := by
  refine ⟨?_, ?_, ?_, ?_, ?_, rfl, rfl, rfl, ?_, ?_, ?_, ?_, ?_, ?_⟩
  · by_cases hs : seconds > 0 <;>
      cases val <;>
        simp [serveEncoded, headerGet, headerSet, writeHeader, write, hs, CacheControlHeader, List.lookup]
  · intro hs
    cases val <;>
      simp [serveEncoded, headerGet, headerSet, writeHeader, write, hs, CacheControlHeader, List.lookup]
  · intro hs
    have hs' : ¬ seconds > 0 := by omega
    cases val <;>
      simp [serveEncoded, headerGet, headerSet, writeHeader, write, hs', CacheControlHeader, List.lookup]
  · by_cases hs : seconds > 0 <;>
      cases val <;>
        simp [serveEncoded, headerSet, writeHeader, write, hs]
  · by_cases hs : seconds > 0 <;>
      cases val <;>
        simp [serveEncoded, headerSet, writeHeader, write, hs]
  · simp [ServeStatus, writeHeader]
  · simp [ServeStatus, writeHeader]
  · intro hc
    simp [ServeResponse, headerGet, headerSet, writeHeader, write, hc, List.lookup]
  · intro hc
    simp [ServeResponse, headerSet, writeHeader, write, hc]
  · by_cases hc : contentType = "" <;>
      simp [ServeResponse, headerSet, writeHeader, write, hc]
  · by_cases hc : contentType = "" <;>
      simp [ServeResponse, headerSet, writeHeader, write, hc]

/-- Witness for `serve_response_surface` at concrete inputs (a positive and
a zero TTL, an empty and a non-empty content type). -/
theorem serve_response_surface_witness :
    (headerGet (serveEncoded st0 (some "v") 404 60).resp CacheControlHeader = some (cacheValue 60)) ∧
    (headerGet (serveEncoded st0 (some "v") 404 0).resp CacheControlHeader = headerGet st0.resp CacheControlHeader) ∧
    (headerGet (ServeResponse st0 "raw" 404 "text/plain").resp "Content-Type" = some "text/plain") ∧
    ((ServeResponse st0 "raw" 404 "").resp.headers = st0.resp.headers) := by
  obtain ⟨-, h2, -, -, -, -, -, -, -, -, h11, -, -, -⟩ :=
    serve_response_surface st0 (some "v") 404 60 "raw" "text/plain"
  obtain ⟨-, -, h3, -, -, -, -, -, -, -, -, h12, -, -⟩ :=
    serve_response_surface st0 (some "v") 404 0 "raw" ""
  exact ⟨h2 (by decide), h3 (by decide), h11 (by decide), h12 rfl⟩

/-- C5 counterexample: `ServeStatus` sets no `Content-Type` header at all,
and `ServeResponse` sets the supplied content type rather than the coder's
declared one. -/
theorem serve_status_no_content_type_cex :
    (headerGet (ServeStatus st0 404).resp "Content-Type" = none) ∧
    (headerGet (ServeResponse st0 "raw" 404 "text/plain").resp "Content-Type"
      ≠ some st0.ctx.coder.contentType) := by decide

end Cobalt
